import Mathlib

/-!
Shallow embedding of the batch automation engine of
`src/selenium_automation.py` (class `SeleniumAutomation`).

Spreadsheet cells are modelled by `Cell` (a cell is absent, a string, or an
integer), a row by `List Cell`, and the sheet by `List (List Cell)` whose
first element is the header row.  The browser driver is modelled by a
`Behavior`: a function that, given the history of driver actions attempted so
far and the next action, either succeeds (`none`) or raises with a message
(`some msg`).  The engine threads the list of attempted actions so that
theorems can speak about which driver calls a run performed and in which
order.
-/

set_option autoImplicit false

namespace Contabil

/-- A raw spreadsheet cell as handed to the engine by `openpyxl`:
`None`, a string, or an integer. -/
inductive Cell where
  | none
  | str (s : String)
  | int (n : Int)
deriving Repr, DecidableEq

/-- Python truthiness of a cell value: `None`, `""` and `0` are falsy,
everything else is truthy.  Used by `if not row[0]` and by
`if not all([cliente, produto, quantidade, categoria])`. -/
def Cell.truthy : Cell → Bool
  | Cell.none => false
  | Cell.str s => !(s == "")
  | Cell.int n => !(n == 0)

/-- Python `str(x)` on a cell value. -/
def Cell.pyStr : Cell → String
  | Cell.none => "None"
  | Cell.str s => s
  | Cell.int n => toString n

/-- Digits-only parse used by the model of Python `int(...)`. -/
def parseDigits : List Char → Option Nat
  | [] => Option.none
  | c :: cs =>
    if c.isDigit then
      match cs, parseDigits cs with
      | [], _ => Option.some (c.toNat - 48)
      | _, Option.some n => Option.some ((c.toNat - 48) * 10 ^ cs.length + n)
      | _, Option.none => Option.none
    else Option.none

/-- Python `int(s)` on a string: strip whitespace, optional sign, digits. -/
def pyIntOfString (s : String) : Option Int :=
  match (s.trim).data with
  | [] => Option.none
  | '-' :: ds => (parseDigits ds).map (fun n => -(n : Int))
  | '+' :: ds => (parseDigits ds).map (fun n => (n : Int))
  | ds => (parseDigits ds).map (fun n => (n : Int))

/-- Python `int(x)` on a cell value; `Except.error` models the raised
`ValueError`/`TypeError` carrying its message. -/
def Cell.pyInt : Cell → Except String Int
  | Cell.none => Except.error "int argument must not be None"
  | Cell.str s =>
    match pyIntOfString s with
    | Option.some n => Except.ok n
    | Option.none => Except.error ("invalid literal for int with base 10: " ++ s)
  | Cell.int n => Except.ok n

/-- `Product` dataclass of `selenium_automation.py`. -/
structure Product where
  cliente : String
  produto : String
  quantidade : Int
  categoria : String
deriving Repr, DecidableEq

/-- One entry of `stats["erros_detalhados"]`.  The `produto` field holds the
raw cell value the code stores there (`row[1]` or the string
`"Desconhecido"` / `"ERRO CRÍTICO"`). -/
structure ErroDetalhado where
  linha : Nat
  produto : Cell
  erro : String
deriving Repr, DecidableEq

/-- The `stats` dictionary built by `processar_planilha`. -/
structure Stats where
  total : Nat
  sucesso : Nat
  erro : Nat
  erros_detalhados : List ErroDetalhado
deriving Repr, DecidableEq

/-- One driver action attempted by the engine against the form. -/
inductive DAction where
  | navigate
  | clearForm
  | fillText (fieldId : String) (value : String)
  | selectOption (fieldId : String) (value : String)
  | submit
deriving Repr, DecidableEq

/-- A driver behaviour: given the history of attempted actions and the next
action, succeed (`none`) or raise with a message (`some msg`). -/
abbrev Behavior := List DAction → DAction → Option String

/-- Whether an action is a `submit()` call. -/
def isSubmit : DAction → Bool
  | DAction.submit => true
  | _ => false

/-- Number of `submit()` calls in a trace. -/
def submitCount (tr : List DAction) : Nat := (tr.filter isSubmit).length

/-- Attempt a list of driver actions in order, stopping at the first one the
behaviour fails; returns whether all succeeded together with the grown
trace of attempted actions. -/
def attemptSteps (B : Behavior) : List DAction → List DAction → Bool × List DAction
  | tr, [] => (true, tr)
  | tr, a :: rest =>
    match B tr a with
    | Option.some _ => (false, tr ++ [a])
    | Option.none => attemptSteps B (tr ++ [a]) rest

/-- The field actions `preencher_produto` performs after the clear, in the
source's fixed order (cliente, produto, quantidade, categoria, submit);
`_fill_campo_texto` stringifies the value with `str(...)`. -/
def driveSteps (p : Product) : List DAction :=
  [DAction.fillText "cliente" p.cliente,
   DAction.fillText "produto" p.produto,
   DAction.fillText "quantidade" (toString p.quantidade),
   DAction.selectOption "categoria" p.categoria,
   DAction.submit]

/-- `preencher_produto`: best-effort `_limpar_form` (its failure is swallowed,
but the attempt is part of the trace), then the five driving steps; any
exception among them is caught and turned into `False`. -/
def preencher_produto (B : Behavior) (tr : List DAction) (p : Product) :
    Bool × List DAction :=
  attemptSteps B (tr ++ [DAction.clearForm]) (driveSteps p)

/-- `if not row or not row[0]`: the blank-row test of the per-row loop. -/
def isBlankRow : List Cell → Bool
  | [] => true
  | c :: _ => !c.truthy

/-- `row[1] if len(row) > 1 else "Desconhecido"`: the best-effort label
stored in a failure detail. -/
def rowProduto : List Cell → Cell
  | _ :: p :: _ => p
  | _ => Cell.str "Desconhecido"

/-- The body of the per-row `try` up to the construction of `Product`:
unpack `row[:4]` (raising when the row is too short), check truthiness of
the four raw cells (raising `ValueError("Campos obrigatórios vazios")`),
then build the `Product` with `str(...).strip()` on the string fields and
`int(...)` on the quantity. -/
def parseRow (row : List Cell) : Except String Product :=
  match row with
  | cliente :: produto :: quantidade :: categoria :: _ =>
    if cliente.truthy && produto.truthy && quantidade.truthy && categoria.truthy then
      match Cell.pyInt quantidade with
      | Except.ok q =>
        Except.ok ⟨(Cell.pyStr cliente).trim, (Cell.pyStr produto).trim, q,
                   (Cell.pyStr categoria).trim⟩
      | Except.error e => Except.error e
    else
      Except.error "Campos obrigatórios vazios"
  | _ =>
    Except.error ("not enough values to unpack (expected 4, got " ++
      toString row.length ++ ")")

/-- One iteration of the `for index, row in enumerate(rows, 1)` loop of
`processar_planilha`: skip blank rows; otherwise parse, and either drive the
product (recording `"Falha ao submeter"` on a driving failure) or record the
caught exception's message. -/
def processRow (B : Behavior) (index : Nat) (row : List Cell)
    (stats : Stats) (tr : List DAction) : Stats × List DAction :=
  if isBlankRow row then (stats, tr)
  else
    match parseRow row with
    | Except.error e =>
      ({ stats with
          erro := stats.erro + 1
          erros_detalhados :=
            stats.erros_detalhados ++ [⟨index + 1, rowProduto row, e⟩] }, tr)
    | Except.ok p =>
      match preencher_produto B tr p with
      | (true, tr2) => ({ stats with sucesso := stats.sucesso + 1 }, tr2)
      | (false, tr2) =>
        ({ stats with
            erro := stats.erro + 1
            erros_detalhados :=
              stats.erros_detalhados ++
                [⟨index + 1, rowProduto row, "Falha ao submeter"⟩] }, tr2)

/-- The per-row loop, with `index` enumerating the data rows from 1. -/
def processRows (B : Behavior) : Nat → List (List Cell) →
    Stats × List DAction → Stats × List DAction
  | _, [], st => st
  | index, row :: rest, (stats, tr) =>
    processRows B (index + 1) rest (processRow B index row stats tr)

/-- `processar_planilha`: navigate once (a failure there is the critical
path: a single synthetic detail with `linha = 0` and label `"ERRO CRÍTICO"`,
and the stats built so far are returned with `total = 0`); otherwise drop
the header row, set `total` to the number of remaining rows, and run the
per-row loop.  Returns the stats together with the trace of attempted
driver actions. -/
def processar_planilha (B : Behavior) (sheet : List (List Cell)) :
    Stats × List DAction :=
  match B [] DAction.navigate with
  | Option.some e =>
    ({ total := 0, sucesso := 0, erro := 0,
       erros_detalhados := [⟨0, Cell.str "ERRO CRÍTICO", e⟩] }, [DAction.navigate])
  | Option.none =>
    let rows := sheet.drop 1
    processRows B 1 rows
      ({ total := rows.length, sucesso := 0, erro := 0, erros_detalhados := [] },
       [DAction.navigate])

/-- A driver whose every action succeeds. -/
def okDriver : Behavior := fun _ _ => Option.none

/-- A driver whose navigation raises with the given message and whose other
actions succeed. -/
def failNav (msg : String) : Behavior :=
  fun _ a => if a = DAction.navigate then Option.some msg else Option.none

/-- A driver that models the GUI's stop button (`_stop_automation` calls
`fechar()`, i.e. `driver.quit()`): every action attempted after the k-th
successful `submit()` raises, as the browser session is gone. -/
def cancelAfter (k : Nat) : Behavior :=
  fun tr _ => if k ≤ submitCount tr then Option.some "invalid session id" else Option.none

/-- A driver whose `submit()` raises with the given message and whose other
actions succeed. -/
def failSubmit (msg : String) : Behavior :=
  fun _ a => if isSubmit a then Option.some msg else Option.none

/-- Number of rows the blank-row test skips. -/
def blankCount (rows : List (List Cell)) : Nat :=
  (rows.filter isBlankRow).length

/-- Number of rows the blank-row test lets through. -/
def nonBlankCount (rows : List (List Cell)) : Nat :=
  (rows.filter (fun r => !isBlankRow r)).length

/-- A row the engine fully accepts: at least four cells, the four raw cells
truthy, and the quantity cell integer-coercible. -/
def validRow (row : List Cell) : Bool :=
  match row with
  | cliente :: produto :: quantidade :: categoria :: _ =>
    cliente.truthy && produto.truthy && quantidade.truthy && categoria.truthy &&
      (match Cell.pyInt quantidade with
       | Except.ok _ => true
       | Except.error _ => false)
  | _ => false

/-- The `Product` a valid row parses to. -/
def rowProduct : List Cell → Product
  | c :: p :: q :: k :: _ =>
    ⟨(Cell.pyStr c).trim, (Cell.pyStr p).trim,
     (match Cell.pyInt q with | Except.ok n => n | Except.error _ => 0),
     (Cell.pyStr k).trim⟩
  | _ => ⟨"", "", 0, ""⟩

/-- The driver actions one successfully driven row contributes. -/
def rowTrace (row : List Cell) : List DAction :=
  DAction.clearForm :: driveSteps (rowProduct row)

/-- The driver actions a fully successful run contributes after navigation. -/
def fullTrace (rows : List (List Cell)) : List DAction :=
  (rows.map rowTrace).flatten

/-- The failure details recorded for a run of rows that all fail at the
driving step, starting at data-row index `i`. -/
def failDetails : Nat → List (List Cell) → List ErroDetalhado
  | _, [] => []
  | i, r :: rest => ⟨i + 1, rowProduto r, "Falha ao submeter"⟩ :: failDetails (i + 1) rest

theorem submitCount_nil : submitCount [] = 0 := rfl

theorem submitCount_append (t1 t2 : List DAction) :
    submitCount (t1 ++ t2) = submitCount t1 + submitCount t2 := by
  simp [submitCount, List.filter_append]

theorem submitCount_cons (a : DAction) (tr : List DAction) :
    submitCount (a :: tr) = (if isSubmit a then 1 else 0) + submitCount tr := by
  by_cases h : isSubmit a <;> simp [submitCount, List.filter_cons, h, Nat.add_comm]

theorem submitCount_rowTrace (row : List Cell) : submitCount (rowTrace row) = 1 := by
  simp [rowTrace, driveSteps, submitCount, List.filter_cons, isSubmit]

theorem fullTrace_cons (r : List Cell) (rest : List (List Cell)) :
    fullTrace (r :: rest) = rowTrace r ++ fullTrace rest := by
  simp [fullTrace]

theorem submitCount_fullTrace (rows : List (List Cell)) :
    submitCount (fullTrace rows) = rows.length := by
  induction rows with
  | nil => rfl
  | cons r rest ih =>
    rw [fullTrace_cons, submitCount_append, submitCount_rowTrace, ih, List.length_cons]
    omega

theorem validRow_not_blank {row : List Cell} (h : validRow row = true) :
    isBlankRow row = false := by
  match row with
  | [] => simp [validRow] at h
  | c :: rest =>
    match rest with
    | [] => simp [validRow] at h
    | p :: rest2 =>
      match rest2 with
      | [] => simp [validRow] at h
      | q :: rest3 =>
        match rest3 with
        | [] => simp [validRow] at h
        | k :: rest4 =>
          simp only [validRow, Bool.and_eq_true] at h
          simp [isBlankRow, h.1.1.1.1]

theorem validRow_parse {row : List Cell} (h : validRow row = true) :
    parseRow row = Except.ok (rowProduct row) := by
  match row with
  | [] => simp [validRow] at h
  | [c] => simp [validRow] at h
  | [c, p] => simp [validRow] at h
  | [c, p, q] => simp [validRow] at h
  | c :: p :: q :: k :: rest =>
    simp only [validRow, Bool.and_eq_true] at h
    obtain ⟨⟨⟨⟨hc, hp⟩, hq⟩, hk⟩, hint⟩ := h
    cases hpi : Cell.pyInt q with
    | ok n => simp [parseRow, hc, hp, hq, hk, hpi, rowProduct]
    | error e => rw [hpi] at hint; simp at hint

theorem attemptSteps_okDriver (steps : List DAction) : ∀ tr : List DAction,
    attemptSteps okDriver tr steps = (true, tr ++ steps) := by
  induction steps with
  | nil => intro tr; simp [attemptSteps]
  | cons a rest ih =>
    intro tr
    simp [attemptSteps, okDriver, ih (tr ++ [a])]

theorem preencher_okDriver (tr : List DAction) (p : Product) :
    preencher_produto okDriver tr p = (true, tr ++ DAction.clearForm :: driveSteps p) := by
  simp [preencher_produto, attemptSteps_okDriver]

theorem processRow_blank (B : Behavior) (i : Nat) {row : List Cell}
    (h : isBlankRow row = true) (s : Stats) (tr : List DAction) :
    processRow B i row s tr = (s, tr) := by
  simp [processRow, h]

theorem processRow_parse_error (B : Behavior) (i : Nat) {row : List Cell} {e : String}
    (hb : isBlankRow row = false) (hp : parseRow row = Except.error e)
    (s : Stats) (tr : List DAction) :
    processRow B i row s tr =
      ({ s with
          erro := s.erro + 1
          erros_detalhados := s.erros_detalhados ++ [⟨i + 1, rowProduto row, e⟩] }, tr) := by
  simp [processRow, hb, hp]

theorem processRow_drive_ok (B : Behavior) (i : Nat) {row : List Cell} {p : Product}
    {tr : List DAction} {tr2 : List DAction}
    (hb : isBlankRow row = false) (hp : parseRow row = Except.ok p)
    (hd : preencher_produto B tr p = (true, tr2)) (s : Stats) :
    processRow B i row s tr = ({ s with sucesso := s.sucesso + 1 }, tr2) := by
  simp [processRow, hb, hp, hd]

theorem processRow_drive_fail (B : Behavior) (i : Nat) {row : List Cell} {p : Product}
    {tr : List DAction} {tr2 : List DAction}
    (hb : isBlankRow row = false) (hp : parseRow row = Except.ok p)
    (hd : preencher_produto B tr p = (false, tr2)) (s : Stats) :
    processRow B i row s tr =
      ({ s with
          erro := s.erro + 1
          erros_detalhados :=
            s.erros_detalhados ++
              [⟨i + 1, rowProduto row, "Falha ao submeter"⟩] }, tr2) := by
  simp [processRow, hb, hp, hd]

theorem processRow_sum (B : Behavior) (i : Nat) (row : List Cell)
    (s : Stats) (tr : List DAction) :
    ((processRow B i row s tr).1.sucesso + (processRow B i row s tr).1.erro
        = s.sucesso + s.erro + (if isBlankRow row then 0 else 1))
    ∧ (processRow B i row s tr).1.total = s.total := by
  by_cases hb : isBlankRow row
  · rw [processRow_blank B i hb s tr]
    simp [hb]
  · rw [Bool.not_eq_true] at hb
    cases hp : parseRow row with
    | error e =>
      rw [processRow_parse_error B i hb hp s tr]
      simp [hb]
      omega
    | ok p =>
      rcases hd : preencher_produto B tr p with ⟨ok, tr2⟩
      cases ok with
      | true =>
        rw [processRow_drive_ok B i hb hp hd s]
        simp [hb]
        omega
      | false =>
        rw [processRow_drive_fail B i hb hp hd s]
        simp [hb]
        omega

theorem processRows_append (B : Behavior) (xs : List (List Cell)) :
    ∀ (ys : List (List Cell)) (i : Nat) (st : Stats × List DAction),
    processRows B i (xs ++ ys) st = processRows B (i + xs.length) ys (processRows B i xs st) := by
  induction xs with
  | nil => intro ys i st; simp [processRows]
  | cons x rest ih =>
    intro ys i st
    rcases st with ⟨s, tr⟩
    have h1 : processRows B i ((x :: rest) ++ ys) (s, tr)
        = processRows B (i + 1) (rest ++ ys) (processRow B i x s tr) := rfl
    have h2 : processRows B i (x :: rest) (s, tr)
        = processRows B (i + 1) rest (processRow B i x s tr) := rfl
    rw [h1, h2, ih]
    have harith : i + 1 + rest.length = i + (x :: rest).length := by
      rw [List.length_cons]; omega
    rw [harith]

theorem processRows_count (B : Behavior) (rows : List (List Cell)) :
    ∀ (i : Nat) (s : Stats) (tr : List DAction),
    ((processRows B i rows (s, tr)).1.sucesso + (processRows B i rows (s, tr)).1.erro
        = s.sucesso + s.erro + nonBlankCount rows)
    ∧ (processRows B i rows (s, tr)).1.total = s.total := by
  induction rows with
  | nil => intro i s tr; simp [processRows, nonBlankCount]
  | cons row rest ih =>
    intro i s tr
    rcases hpr : processRow B i row s tr with ⟨s2, tr2⟩
    have hsum := processRow_sum B i row s tr
    rw [hpr] at hsum
    have hrest := ih (i + 1) s2 tr2
    have hnb : nonBlankCount (row :: rest)
        = (if isBlankRow row then 0 else 1) + nonBlankCount rest := by
      by_cases hb : isBlankRow row
      · simp [nonBlankCount, List.filter_cons, hb]
      · simp [nonBlankCount, List.filter_cons, hb]
        omega
    simp only [processRows, hpr]
    refine ⟨?_, ?_⟩
    · rw [hrest.1, hnb]
      by_cases hb : isBlankRow row <;> simp [hb] at hsum ⊢ <;> omega
    · rw [hrest.2, hsum.2]

theorem blank_nonblank_split (rows : List (List Cell)) :
    nonBlankCount rows + blankCount rows = rows.length := by
  induction rows with
  | nil => rfl
  | cons row rest ih =>
    simp only [nonBlankCount, blankCount, List.filter_cons] at ih ⊢
    by_cases hb : isBlankRow row <;> simp [hb] <;> omega

theorem processRows_okDriver_valid (rows : List (List Cell))
    (h : ∀ r ∈ rows, validRow r = true) :
    ∀ (i : Nat) (s : Stats) (tr : List DAction),
    processRows okDriver i rows (s, tr)
      = ({ s with sucesso := s.sucesso + rows.length }, tr ++ fullTrace rows) := by
  induction rows with
  | nil => intro i s tr; simp [processRows, fullTrace]
  | cons row rest ih =>
    intro i s tr
    have hrow : validRow row = true := h row (List.mem_cons_self row rest)
    have hrest : ∀ r ∈ rest, validRow r = true :=
      fun r hr => h r (List.mem_cons_of_mem row hr)
    have hstep : processRow okDriver i row s tr
        = ({ s with sucesso := s.sucesso + 1 }, tr ++ rowTrace row) := by
      simp [processRow, validRow_not_blank hrow, validRow_parse hrow,
        preencher_okDriver, rowTrace]
    simp only [processRows, hstep, ih hrest]
    have h1 : s.sucesso + 1 + rest.length = s.sucesso + (row :: rest).length := by
      rw [List.length_cons]; omega
    rw [h1, fullTrace_cons, List.append_assoc]

theorem attemptSteps_cancel_fail {k : Nat} {tr : List DAction} (hk : k ≤ submitCount tr)
    (a : DAction) (rest : List DAction) :
    attemptSteps (cancelAfter k) tr (a :: rest) = (false, tr ++ [a]) := by
  simp [attemptSteps, cancelAfter, hk]

theorem preencher_cancel_fail {k : Nat} {tr : List DAction} (hk : k ≤ submitCount tr)
    (p : Product) :
    preencher_produto (cancelAfter k) tr p
      = (false, tr ++ [DAction.clearForm, DAction.fillText "cliente" p.cliente]) := by
  have h2 : k ≤ submitCount (tr ++ [DAction.clearForm]) := by
    rw [submitCount_append]
    have : submitCount [DAction.clearForm] = 0 := rfl
    omega
  rw [preencher_produto, driveSteps, attemptSteps_cancel_fail h2]
  simp

theorem attemptSteps_cancel_ok {k : Nat} {tr : List DAction} (hk : submitCount tr < k)
    (p : Product) :
    attemptSteps (cancelAfter k) tr (driveSteps p) = (true, tr ++ driveSteps p) := by
  have hn : ¬k ≤ submitCount tr := Nat.not_le.mpr hk
  simp [driveSteps, attemptSteps, cancelAfter, submitCount_append, submitCount_cons,
    isSubmit, submitCount_nil, hn, List.append_assoc]

theorem preencher_cancel_ok {k : Nat} {tr : List DAction} (hk : submitCount tr < k)
    (p : Product) :
    preencher_produto (cancelAfter k) tr p
      = (true, tr ++ DAction.clearForm :: driveSteps p) := by
  have h2 : submitCount (tr ++ [DAction.clearForm]) < k := by
    rw [submitCount_append]
    have : submitCount [DAction.clearForm] = 0 := rfl
    omega
  rw [preencher_produto, attemptSteps_cancel_ok h2]
  simp

theorem processRows_cancel_ok (k : Nat) (rows : List (List Cell))
    (h : ∀ r ∈ rows, validRow r = true) :
    ∀ (i : Nat) (s : Stats) (tr : List DAction), submitCount tr + rows.length ≤ k →
    processRows (cancelAfter k) i rows (s, tr)
      = ({ s with sucesso := s.sucesso + rows.length }, tr ++ fullTrace rows) := by
  induction rows with
  | nil => intro i s tr _; simp [processRows, fullTrace]
  | cons row rest ih =>
    intro i s tr hbound
    have hrow : validRow row = true := h row (List.mem_cons_self row rest)
    have hrest : ∀ r ∈ rest, validRow r = true :=
      fun r hr => h r (List.mem_cons_of_mem row hr)
    have hlt : submitCount tr < k := by
      rw [List.length_cons] at hbound; omega
    have hdrv : preencher_produto (cancelAfter k) tr (rowProduct row)
        = (true, tr ++ rowTrace row) := by
      rw [preencher_cancel_ok hlt, rowTrace]
    have hstep := processRow_drive_ok (cancelAfter k) i
      (validRow_not_blank hrow) (validRow_parse hrow) hdrv s
    have hbound2 : submitCount (tr ++ rowTrace row) + rest.length ≤ k := by
      rw [submitCount_append, submitCount_rowTrace]
      rw [List.length_cons] at hbound; omega
    simp only [processRows, hstep, ih hrest (i + 1) _ _ hbound2]
    have h1 : s.sucesso + 1 + rest.length = s.sucesso + (row :: rest).length := by
      rw [List.length_cons]; omega
    rw [h1, fullTrace_cons, List.append_assoc]

theorem processRows_cancel_fail (k : Nat) (rows : List (List Cell))
    (h : ∀ r ∈ rows, validRow r = true) :
    ∀ (i : Nat) (s : Stats) (tr : List DAction), k ≤ submitCount tr →
    (processRows (cancelAfter k) i rows (s, tr)).1
      = { s with
          erro := s.erro + rows.length
          erros_detalhados := s.erros_detalhados ++ failDetails i rows } := by
  induction rows with
  | nil => intro i s tr _; simp [processRows, failDetails]
  | cons row rest ih =>
    intro i s tr hk
    have hrow : validRow row = true := h row (List.mem_cons_self row rest)
    have hrest : ∀ r ∈ rest, validRow r = true :=
      fun r hr => h r (List.mem_cons_of_mem row hr)
    have hdrv := preencher_cancel_fail hk (rowProduct row)
    have hstep := processRow_drive_fail (cancelAfter k) i
      (validRow_not_blank hrow) (validRow_parse hrow) hdrv s
    have hk2 : k ≤ submitCount (tr ++
        [DAction.clearForm, DAction.fillText "cliente" (rowProduct row).cliente]) := by
      rw [submitCount_append]
      have : submitCount [DAction.clearForm,
          DAction.fillText "cliente" (rowProduct row).cliente] = 0 := rfl
      omega
    simp only [processRows, hstep, ih hrest (i + 1) _ _ hk2]
    have h1 : s.erro + 1 + rest.length = s.erro + (row :: rest).length := by
      rw [List.length_cons]; omega
    have h2 : failDetails i (row :: rest)
        = ⟨i + 1, rowProduto row, "Falha ao submeter"⟩ :: failDetails (i + 1) rest := rfl
    rw [h1, h2, List.append_assoc]
    simp

/-- C1: per-record failure isolation.  For every driver behaviour `B` (so in
particular for drivers whose fill/select/submit raise on some records) and
every sheet, once navigation succeeds, every non-blank data row receives
exactly one recorded outcome — `sucesso + erro` equals the number of
non-blank rows — so a driving failure on record k never prevents the
records after it from being processed, and `total` is left at the full data
row count.  `processar_planilha` is a total function of the embedding:
every driving exception is consumed inside the per-record step and the
caller always receives a `Stats` value. -/
theorem claim1_per_record_isolation (B : Behavior) (header : List Cell)
    (rows : List (List Cell)) (hnav : B [] DAction.navigate = Option.none) :
    (processar_planilha B (header :: rows)).1.sucesso
        + (processar_planilha B (header :: rows)).1.erro = nonBlankCount rows
    ∧ (processar_planilha B (header :: rows)).1.total = rows.length := by
  have hcount := processRows_count B rows 1
    { total := rows.length, sucesso := 0, erro := 0, erros_detalhados := [] }
    [DAction.navigate]
  simp only [processar_planilha, hnav, List.drop_succ_cons, List.drop_zero]
  refine ⟨?_, ?_⟩
  · rw [hcount.1]
    simp
  · rw [hcount.2]

/-- Witness for C1: a concrete run with a failing driver on one record. -/
theorem claim1_per_record_isolation_witness :
    (processar_planilha okDriver
        [[Cell.str "cab"],
         [Cell.str "A", Cell.str "B", Cell.int 2, Cell.str "C"],
         [Cell.none]]).1.sucesso
      + (processar_planilha okDriver
        [[Cell.str "cab"],
         [Cell.str "A", Cell.str "B", Cell.int 2, Cell.str "C"],
         [Cell.none]]).1.erro
      = nonBlankCount
          [[Cell.str "A", Cell.str "B", Cell.int 2, Cell.str "C"], [Cell.none]]
    ∧ (processar_planilha okDriver
        [[Cell.str "cab"],
         [Cell.str "A", Cell.str "B", Cell.int 2, Cell.str "C"],
         [Cell.none]]).1.total
      = [[Cell.str "A", Cell.str "B", Cell.int 2, Cell.str "C"], [Cell.none]].length :=
  claim1_per_record_isolation okDriver [Cell.str "cab"]
    [[Cell.str "A", Cell.str "B", Cell.int 2, Cell.str "C"], [Cell.none]] rfl

/-- C2: happy path.  With a driver whose actions always succeed and a sheet
of valid non-blank data rows, the run returns `sucesso = N`, `erro = 0`, no
failure details, `total = N`, and the driver trace is exactly one navigation
followed by the per-row blocks in source order, each ending in one
`submit()` — so exactly N submits, issued in row order. -/
theorem claim2_happy_path (header : List Cell) (rows : List (List Cell))
    (h : ∀ r ∈ rows, validRow r = true) :
    processar_planilha okDriver (header :: rows)
      = ({ total := rows.length, sucesso := rows.length, erro := 0,
           erros_detalhados := [] },
         DAction.navigate :: fullTrace rows)
    ∧ submitCount (processar_planilha okDriver (header :: rows)).2 = rows.length := by
  have hmain : processar_planilha okDriver (header :: rows)
      = ({ total := rows.length, sucesso := rows.length, erro := 0,
           erros_detalhados := [] },
         DAction.navigate :: fullTrace rows) := by
    simp only [processar_planilha, okDriver, List.drop_succ_cons, List.drop_zero]
    rw [processRows_okDriver_valid rows h 1
      { total := rows.length, sucesso := 0, erro := 0, erros_detalhados := [] }
      [DAction.navigate]]
    simp
  refine ⟨hmain, ?_⟩
  rw [hmain]
  rw [submitCount_cons, submitCount_fullTrace]
  simp [isSubmit]

/-- Witness for C2: two valid rows. -/
theorem claim2_happy_path_witness :
    processar_planilha okDriver
        [[Cell.str "cab"],
         [Cell.str "A", Cell.str "B", Cell.int 2, Cell.str "C"],
         [Cell.str "D", Cell.str "E", Cell.int 3, Cell.str "F"]]
      = ({ total := 2, sucesso := 2, erro := 0, erros_detalhados := [] },
         DAction.navigate :: fullTrace
           [[Cell.str "A", Cell.str "B", Cell.int 2, Cell.str "C"],
            [Cell.str "D", Cell.str "E", Cell.int 3, Cell.str "F"]])
    ∧ submitCount (processar_planilha okDriver
        [[Cell.str "cab"],
         [Cell.str "A", Cell.str "B", Cell.int 2, Cell.str "C"],
         [Cell.str "D", Cell.str "E", Cell.int 3, Cell.str "F"]]).2 = 2 :=
  claim2_happy_path [Cell.str "cab"]
    [[Cell.str "A", Cell.str "B", Cell.int 2, Cell.str "C"],
     [Cell.str "D", Cell.str "E", Cell.int 3, Cell.str "F"]] (by decide)

/-- C3 counterexample: when navigation raises, the code appends the single
critical detail but never increments the `erro` counter, so `failed` is 0,
not 1 as the claim states. -/
theorem claim3_failed_counter_stays_zero :
    (processar_planilha (failNav "net timeout") [[Cell.str "cab"]]).1.erro = 0
    ∧ ¬((processar_planilha (failNav "net timeout") [[Cell.str "cab"]]).1.erro = 1) := by
  decide

/-- C3 amended: a navigation failure aborts the run before any row is
processed and returns `total = 0`, `sucesso = 0`, `erro = 0` (the failure
counter is not incremented), and exactly one failure entry with
`linha = 0`, label `"ERRO CRÍTICO"`, and the navigation error's message. -/
theorem claim3_critical_navigation (B : Behavior) (sheet : List (List Cell))
    (msg : String) (hnav : B [] DAction.navigate = Option.some msg) :
    processar_planilha B sheet
      = ({ total := 0, sucesso := 0, erro := 0,
           erros_detalhados := [⟨0, Cell.str "ERRO CRÍTICO", msg⟩] },
         [DAction.navigate]) := by
  simp [processar_planilha, hnav]

/-- Witness for C3: a concrete driver whose navigation raises. -/
theorem claim3_critical_navigation_witness :
    processar_planilha (failNav "net timeout") [[Cell.str "cab"]]
      = ({ total := 0, sucesso := 0, erro := 0,
           erros_detalhados := [⟨0, Cell.str "ERRO CRÍTICO", "net timeout"⟩] },
         [DAction.navigate]) :=
  claim3_critical_navigation (failNav "net timeout") [[Cell.str "cab"]] "net timeout" rfl

/-- C4 counterexample: a sheet whose only data row is blank yields
`total = 1`, not 0 — `stats["total"] = len(rows)` is set before the
blank-row test, so blank rows are counted in `total`. -/
theorem claim4_blank_row_counted_in_total :
    (processar_planilha okDriver [[Cell.str "cab"], [Cell.none]]).1.total = 1
    ∧ ¬((processar_planilha okDriver [[Cell.str "cab"], [Cell.none]]).1.total = 0) := by
  decide

/-- C4 amended: a data row whose first cell is empty or absent is skipped
entirely — not validated, the driver is not touched for it, and the stats
are unchanged by it — but it is still included in the returned `total`,
which is set to the full data row count before the loop. -/
theorem claim4_blank_row_skipped (B : Behavior) (header : List Cell)
    (rows : List (List Cell)) (i : Nat) (row : List Cell)
    (s : Stats) (tr : List DAction)
    (hnav : B [] DAction.navigate = Option.none) (hb : isBlankRow row = true) :
    (processar_planilha B (header :: rows)).1.total = rows.length
    ∧ processRow B i row s tr = (s, tr) := by
  refine ⟨?_, processRow_blank B i hb s tr⟩
  have hcount := processRows_count B rows 1
    { total := rows.length, sucesso := 0, erro := 0, erros_detalhados := [] }
    [DAction.navigate]
  simp only [processar_planilha, hnav, List.drop_succ_cons, List.drop_zero]
  rw [hcount.2]

/-- Witness for C4: a concrete blank row. -/
theorem claim4_blank_row_skipped_witness :
    (processar_planilha okDriver [[Cell.str "cab"], [Cell.none]]).1.total
        = [[Cell.none]].length
    ∧ processRow okDriver 1 [Cell.none]
        { total := 1, sucesso := 0, erro := 0, erros_detalhados := [] } []
      = ({ total := 1, sucesso := 0, erro := 0, erros_detalhados := [] }, []) :=
  claim4_blank_row_skipped okDriver [Cell.str "cab"] [[Cell.none]] 1 [Cell.none]
    { total := 1, sucesso := 0, erro := 0, erros_detalhados := [] } [] rfl rfl

/-- C5 counterexample: with one blank data row and no cancellation the run
is fully processed yet `sucesso + erro = 0 ≠ 1 = total`, refuting
`succeeded + failed + unprocessed == total` with `unprocessed = 0`. -/
theorem claim5_invariant_fails_on_blank :
    ¬((processar_planilha okDriver [[Cell.str "cab"], [Cell.none]]).1.sucesso
        + (processar_planilha okDriver [[Cell.str "cab"], [Cell.none]]).1.erro
        = (processar_planilha okDriver [[Cell.str "cab"], [Cell.none]]).1.total) := by
  decide

/-- C5 amended: the accounting invariant that actually holds is
`sucesso + erro + (number of blank data rows) = total`, for every driver
behaviour once navigation succeeds: blank rows are counted in `total` but
receive no outcome, and there is no separate `unprocessed` count. -/
theorem claim5_stats_accounting (B : Behavior) (header : List Cell)
    (rows : List (List Cell)) (hnav : B [] DAction.navigate = Option.none) :
    (processar_planilha B (header :: rows)).1.sucesso
        + (processar_planilha B (header :: rows)).1.erro
        + blankCount rows
      = (processar_planilha B (header :: rows)).1.total := by
  have hcount := processRows_count B rows 1
    { total := rows.length, sucesso := 0, erro := 0, erros_detalhados := [] }
    [DAction.navigate]
  have hsplit := blank_nonblank_split rows
  simp only [processar_planilha, hnav, List.drop_succ_cons, List.drop_zero]
  rw [hcount.1, hcount.2]
  simp only [Nat.zero_add]
  omega

/-- Witness for C5: one valid and one blank row. -/
theorem claim5_stats_accounting_witness :
    (processar_planilha okDriver
        [[Cell.str "cab"],
         [Cell.str "A", Cell.str "B", Cell.int 2, Cell.str "C"], [Cell.none]]).1.sucesso
      + (processar_planilha okDriver
        [[Cell.str "cab"],
         [Cell.str "A", Cell.str "B", Cell.int 2, Cell.str "C"], [Cell.none]]).1.erro
      + blankCount [[Cell.str "A", Cell.str "B", Cell.int 2, Cell.str "C"], [Cell.none]]
      = (processar_planilha okDriver
        [[Cell.str "cab"],
         [Cell.str "A", Cell.str "B", Cell.int 2, Cell.str "C"], [Cell.none]]).1.total :=
  claim5_stats_accounting okDriver [Cell.str "cab"]
    [[Cell.str "A", Cell.str "B", Cell.int 2, Cell.str "C"], [Cell.none]] rfl

/-- C6 counterexample: a row whose first cell is whitespace-only is empty
after trimming, yet it passes the presence check (which tests truthiness of
the raw cells before trimming), the driver is driven for it (one submit),
and it is counted as a success with no failure detail — refuting the claim
that a field empty after coercion yields a validation failure with the
driver untouched. -/
theorem claim6_whitespace_passes_validation :
    (processar_planilha okDriver
        [[Cell.str "cab"],
         [Cell.str " ", Cell.str "item", Cell.int 1, Cell.str "cat"]]).1.sucesso = 1
    ∧ (processar_planilha okDriver
        [[Cell.str "cab"],
         [Cell.str " ", Cell.str "item", Cell.int 1, Cell.str "cat"]]).1.erros_detalhados
        = []
    ∧ submitCount (processar_planilha okDriver
        [[Cell.str "cab"],
         [Cell.str " ", Cell.str "item", Cell.int 1, Cell.str "cat"]]).2 = 1 := by
  decide

/-- C6 amended: the presence check tests truthiness of the four RAW cell
values, before any trimming or coercion.  A non-blank row with some raw
cell among the four falsy fails with reason `"Campos obrigatórios vazios"`
and the driver is never touched for it; trimming and integer coercion are
applied only afterwards, so a field that is empty only after trimming
passes validation and is driven. -/
theorem claim6_raw_presence_check (B : Behavior) (i : Nat)
    (c p q k : Cell) (rest : List Cell) (s : Stats) (tr : List DAction)
    (hc : c.truthy = true)
    (hmiss : (c.truthy && p.truthy && q.truthy && k.truthy) = false) :
    processRow B i (c :: p :: q :: k :: rest) s tr
      = ({ s with
            erro := s.erro + 1
            erros_detalhados :=
              s.erros_detalhados ++ [⟨i + 1, p, "Campos obrigatórios vazios"⟩] }, tr) := by
  have hb : isBlankRow (c :: p :: q :: k :: rest) = false := by
    simp [isBlankRow, hc]
  have hp : parseRow (c :: p :: q :: k :: rest)
      = Except.error "Campos obrigatórios vazios" := by
    simp only [parseRow, hmiss]
    rfl
  rw [processRow_parse_error B i hb hp s tr]
  rfl

/-- Witness for C6: an otherwise-valid row whose category cell is `None`. -/
theorem claim6_raw_presence_check_witness :
    processRow okDriver 1
        [Cell.str "A", Cell.str "B", Cell.int 2, Cell.none]
        { total := 1, sucesso := 0, erro := 0, erros_detalhados := [] } []
      = ({ total := 1, sucesso := 0, erro := 1,
           erros_detalhados := [⟨2, Cell.str "B", "Campos obrigatórios vazios"⟩] }, []) :=
  claim6_raw_presence_check okDriver 1 (Cell.str "A") (Cell.str "B") (Cell.int 2)
    Cell.none []
    { total := 1, sucesso := 0, erro := 0, erros_detalhados := [] } [] rfl rfl

/-- C7: row numbering.  For any run over valid rows with exactly one
invalid non-blank row, the recorded `linha` is the row's loop index plus
one, i.e. its physical spreadsheet line (header is line 1, data row j is
line j + 1): a failing row preceded by `pre.length` data rows is reported
at line `pre.length + 2`, and the run returns `sucesso = N - 1`,
`erro = 1`. -/
theorem claim7_row_number (header : List Cell) (pre : List (List Cell))
    (bad : List Cell) (post : List (List Cell)) (e : String)
    (hpre : ∀ r ∈ pre, validRow r = true)
    (hpost : ∀ r ∈ post, validRow r = true)
    (hb : isBlankRow bad = false)
    (hbad : parseRow bad = Except.error e) :
    (processar_planilha okDriver (header :: (pre ++ bad :: post))).1
      = { total := pre.length + 1 + post.length
          sucesso := pre.length + post.length
          erro := 1
          erros_detalhados := [⟨pre.length + 2, rowProduto bad, e⟩] } := by
  simp only [processar_planilha, okDriver, List.drop_succ_cons, List.drop_zero]
  rw [processRows_append okDriver pre (bad :: post) 1 _]
  rw [processRows_okDriver_valid pre hpre 1
    { total := (pre ++ bad :: post).length, sucesso := 0, erro := 0,
      erros_detalhados := [] } [DAction.navigate]]
  have hstep : processRows okDriver (1 + pre.length) (bad :: post)
      ({ total := (pre ++ bad :: post).length, sucesso := 0 + pre.length, erro := 0,
         erros_detalhados := [] }, [DAction.navigate] ++ fullTrace pre)
      = processRows okDriver (1 + pre.length + 1) post
          (processRow okDriver (1 + pre.length) bad
            { total := (pre ++ bad :: post).length, sucesso := 0 + pre.length, erro := 0,
              erros_detalhados := [] } ([DAction.navigate] ++ fullTrace pre)) := rfl
  rw [hstep, processRow_parse_error okDriver (1 + pre.length) hb hbad]
  rw [processRows_okDriver_valid post hpost (1 + pre.length + 1) _ _]
  have h1 : (pre ++ bad :: post).length = pre.length + 1 + post.length := by
    rw [List.length_append, List.length_cons]; omega
  have h2 : 1 + pre.length + 1 = pre.length + 2 := by omega
  simp [h1, h2]

/-- Witness for C7: three data rows with row 2 invalid (empty category);
the failure is reported at physical line 3. -/
theorem claim7_row_number_witness :
    (processar_planilha okDriver
        [[Cell.str "cab"],
         [Cell.str "A", Cell.str "B", Cell.int 2, Cell.str "C"],
         [Cell.str "A2", Cell.str "B2", Cell.int 2, Cell.none],
         [Cell.str "D", Cell.str "E", Cell.int 3, Cell.str "F"]]).1
      = { total := 3, sucesso := 2, erro := 1,
          erros_detalhados :=
            [⟨3, Cell.str "B2", "Campos obrigatórios vazios"⟩] } :=
  claim7_row_number [Cell.str "cab"]
    [[Cell.str "A", Cell.str "B", Cell.int 2, Cell.str "C"]]
    [Cell.str "A2", Cell.str "B2", Cell.int 2, Cell.none]
    [[Cell.str "D", Cell.str "E", Cell.int 3, Cell.str "F"]]
    "Campos obrigatórios vazios" (by decide) (by decide) rfl rfl

/-- C8 counterexample: with a driver whose `submit()` raises with message
`"boom"`, the recorded reason is the fixed string `"Falha ao submeter"`,
not the underlying exception's message — `preencher_produto` catches the
exception and returns only `False`, discarding the message. -/
theorem claim8_reason_is_fixed_string :
    (processar_planilha (failSubmit "boom")
        [[Cell.str "cab"],
         [Cell.str "A", Cell.str "B", Cell.int 2, Cell.str "C"]]).1.erros_detalhados
      = [⟨2, Cell.str "B", "Falha ao submeter"⟩]
    ∧ ¬((processar_planilha (failSubmit "boom")
        [[Cell.str "cab"],
         [Cell.str "A", Cell.str "B", Cell.int 2, Cell.str "C"]]).1.erros_detalhados
      = [⟨2, Cell.str "B", "boom"⟩]) := by
  decide

/-- C8 amended: any exception raised by fillText/selectOption/submit is
caught at the record level and converted into a failed outcome, but the
recorded reason is always the fixed string `"Falha ao submeter"` — the
underlying exception's message is discarded by `preencher_produto`, which
returns only a boolean.  Processing then continues with the next row (the
per-row loop structure, cf. the accounting of C1). -/
theorem claim8_drive_failure_reason (B : Behavior) (i : Nat) (row : List Cell)
    (p : Product) (s : Stats) (tr tr2 : List DAction)
    (hb : isBlankRow row = false)
    (hp : parseRow row = Except.ok p)
    (hd : preencher_produto B tr p = (false, tr2)) :
    processRow B i row s tr
      = ({ s with
            erro := s.erro + 1
            erros_detalhados :=
              s.erros_detalhados ++
                [⟨i + 1, rowProduto row, "Falha ao submeter"⟩] }, tr2) :=
  processRow_drive_fail B i hb hp hd s

/-- Witness for C8: a concrete driver whose submit raises. -/
theorem claim8_drive_failure_reason_witness :
    processRow (failSubmit "boom") 1
        [Cell.str "A", Cell.str "B", Cell.int 2, Cell.str "C"]
        { total := 1, sucesso := 0, erro := 0, erros_detalhados := [] } []
      = ({ total := 1, sucesso := 0, erro := 1,
           erros_detalhados := [⟨2, Cell.str "B", "Falha ao submeter"⟩] },
         DAction.clearForm ::
           driveSteps (rowProduct [Cell.str "A", Cell.str "B", Cell.int 2, Cell.str "C"])) :=
  claim8_drive_failure_reason (failSubmit "boom") 1
    [Cell.str "A", Cell.str "B", Cell.int 2, Cell.str "C"]
    (rowProduct [Cell.str "A", Cell.str "B", Cell.int 2, Cell.str "C"])
    { total := 1, sucesso := 0, erro := 0, erros_detalhados := [] } []
    (DAction.clearForm ::
      driveSteps (rowProduct [Cell.str "A", Cell.str "B", Cell.int 2, Cell.str "C"]))
    rfl rfl rfl

/-- C9 counterexample: stopping after row 1 of 2 (modelled as the driver
session being quit, so every later action raises) does not stop the loop:
the remaining row is processed and counted as failed, so
`sucesso + erro = 2`, not 1 as the claim states. -/
theorem claim9_stop_does_not_halt_loop :
    (processar_planilha (cancelAfter 1)
        [[Cell.str "cab"],
         [Cell.str "A", Cell.str "B", Cell.int 2, Cell.str "C"],
         [Cell.str "D", Cell.str "E", Cell.int 3, Cell.str "F"]]).1.sucesso
      + (processar_planilha (cancelAfter 1)
        [[Cell.str "cab"],
         [Cell.str "A", Cell.str "B", Cell.int 2, Cell.str "C"],
         [Cell.str "D", Cell.str "E", Cell.int 3, Cell.str "F"]]).1.erro = 2
    ∧ ¬((processar_planilha (cancelAfter 1)
        [[Cell.str "cab"],
         [Cell.str "A", Cell.str "B", Cell.int 2, Cell.str "C"],
         [Cell.str "D", Cell.str "E", Cell.int 3, Cell.str "F"]]).1.sucesso
      + (processar_planilha (cancelAfter 1)
        [[Cell.str "cab"],
         [Cell.str "A", Cell.str "B", Cell.int 2, Cell.str "C"],
         [Cell.str "D", Cell.str "E", Cell.int 3, Cell.str "F"]]).1.erro = 1) := by
  decide

/-- C9 amended: the engine has no stop-signal check; a caller-issued stop
tears the driver session down, after which the loop keeps running and every
remaining valid row fails at the driving step and is recorded as a failure
with reason `"Falha ao submeter"`.  Stopping after the first k of n valid
rows therefore returns `sucesso = k`, `erro = n - k`,
`sucesso + erro = total = n` (not k), with `total` left at the originally
computed row count. -/
theorem claim9_cancellation (header : List Cell) (pre post : List (List Cell))
    (hpre : ∀ r ∈ pre, validRow r = true)
    (hpost : ∀ r ∈ post, validRow r = true)
    (hk : 0 < pre.length) :
    (processar_planilha (cancelAfter pre.length) (header :: (pre ++ post))).1
      = { total := pre.length + post.length
          sucesso := pre.length
          erro := post.length
          erros_detalhados := failDetails (1 + pre.length) post } := by
  have hnav : cancelAfter pre.length [] DAction.navigate = Option.none := by
    have h0 : ¬pre.length ≤ submitCount [] := by
      rw [submitCount_nil]; omega
    simp [cancelAfter, h0]
  simp only [processar_planilha, hnav, List.drop_succ_cons, List.drop_zero]
  rw [processRows_append (cancelAfter pre.length) pre post 1 _]
  rw [processRows_cancel_ok pre.length pre hpre 1
    { total := (pre ++ post).length, sucesso := 0, erro := 0, erros_detalhados := [] }
    [DAction.navigate]
    (by
      have h0 : submitCount [DAction.navigate] = 0 := rfl
      omega)]
  have hsub : pre.length ≤
      submitCount ([DAction.navigate] ++ fullTrace pre) := by
    rw [submitCount_append, submitCount_fullTrace]
    omega
  rw [processRows_cancel_fail pre.length post hpost (1 + pre.length) _ _ hsub]
  have h1 : (pre ++ post).length = pre.length + post.length := by
    rw [List.length_append]
  simp [h1]

/-- Witness for C9: stop after row 1 of 2; the second row is recorded as a
driving failure at its physical line. -/
theorem claim9_cancellation_witness :
    (processar_planilha (cancelAfter 1)
        [[Cell.str "cab"],
         [Cell.str "A", Cell.str "B", Cell.int 2, Cell.str "C"],
         [Cell.str "D", Cell.str "E", Cell.int 3, Cell.str "F"]]).1
      = { total := 2, sucesso := 1, erro := 1,
          erros_detalhados := [⟨3, Cell.str "E", "Falha ao submeter"⟩] } :=
  claim9_cancellation [Cell.str "cab"]
    [[Cell.str "A", Cell.str "B", Cell.int 2, Cell.str "C"]]
    [[Cell.str "D", Cell.str "E", Cell.int 3, Cell.str "F"]]
    (by decide) (by decide) (by decide)

/-- C10: a non-blank row whose quantity cell is the integer 0 is rejected
by the presence check (Python truthiness of the raw cells: 0 is falsy),
recorded as a validation failure with reason
`"Campos obrigatórios vazios"`, and the driver is never invoked for it —
even though 0 coerces to an integer. -/
theorem claim10_zero_quantity (B : Behavior) (i : Nat) (c p k : Cell)
    (rest : List Cell) (s : Stats) (tr : List DAction)
    (hc : c.truthy = true) :
    processRow B i (c :: p :: Cell.int 0 :: k :: rest) s tr
      = ({ s with
            erro := s.erro + 1
            erros_detalhados :=
              s.erros_detalhados ++ [⟨i + 1, p, "Campos obrigatórios vazios"⟩] }, tr) := by
  have hb : isBlankRow (c :: p :: Cell.int 0 :: k :: rest) = false := by
    simp [isBlankRow, hc]
  have hmiss : (c.truthy && p.truthy && (Cell.int 0).truthy && k.truthy) = false := by
    simp [Cell.truthy]
  have hparse : parseRow (c :: p :: Cell.int 0 :: k :: rest)
      = Except.error "Campos obrigatórios vazios" := by
    simp only [parseRow, hmiss]
    rfl
  rw [processRow_parse_error B i hb hparse s tr]
  rfl

/-- Witness for C10: a concrete row with quantity 0. -/
theorem claim10_zero_quantity_witness :
    processRow okDriver 1
        [Cell.str "A", Cell.str "B", Cell.int 0, Cell.str "C"]
        { total := 1, sucesso := 0, erro := 0, erros_detalhados := [] } []
      = ({ total := 1, sucesso := 0, erro := 1,
           erros_detalhados := [⟨2, Cell.str "B", "Campos obrigatórios vazios"⟩] }, []) :=
  claim10_zero_quantity okDriver 1 (Cell.str "A") (Cell.str "B") (Cell.str "C") []
    { total := 1, sucesso := 0, erro := 0, erros_detalhados := [] } [] rfl

end Contabil
